import Mathlib

/-!
# Verification of the Cyber Tonic scoring & gap-analysis engine

Shallow embedding of the scoring, prioritization and gap-analysis logic of
`src/assessment_enhancements.py` (class `AdvancedGapAnalysis`) and the
aggregation code of `apps/client_portal.py`. Python dicts are modelled as
association lists, floats as rationals, and optional dict fields
(`d.get(k, default)`) as `Option` values with explicit defaults.
-/

/-- A subcategory node of the NIST taxonomy (`nist_data` leaf). -/
structure Subcategory where
  id : String
  description : String
deriving DecidableEq, Repr

/-- A category node of the NIST taxonomy. -/
structure Category where
  id : String
  name : String
  subcategories : List Subcategory
deriving DecidableEq, Repr

/-- A function node of the NIST taxonomy (top level of `nist_data["functions"]`). -/
structure NistFunction where
  id : String
  name : String
  categories : List Category
deriving DecidableEq, Repr

/-- An assessment record. The Python code reads the dict fields with
`assessment.get("score", 0)`, `assessment.get("status", "Not Implemented")`
and `assessment.get("notes", "")`, so each field is optional here and the
defaults are applied at the read sites, exactly as in the source. -/
structure Assessment where
  score : Option ℚ
  status : Option String
  notes : Option String
deriving DecidableEq, Repr

/-- Priority tiers returned by `AdvancedGapAnalysis.calculate_priority_score`. -/
inductive Priority where
  | Critical
  | High
  | Medium
  | Low
deriving DecidableEq, Repr

/-- Remediation urgency tiers returned by `_get_remediation_urgency`. -/
inductive Urgency where
  | Immediate
  | High
  | Medium
  | Low
deriving DecidableEq, Repr

/-- A Python `Dict[str, α]` as an association list. -/
abbrev Dict (α : Type) := List (String × α)

/-- Python `d[k]` as an `Option`: first binding of `k` in the list, if any. -/
def dictGet {α : Type} : Dict α → String → Option α
  | [], _ => none
  | (k2, v) :: rest, k => if k2 = k then some v else dictGet rest k

/-- Python `d.get(k, default)`. -/
def dictGetD {α : Type} (d : Dict α) (k : String) (default : α) : α :=
  (dictGet d k).getD default

/-- Python `k in d`. -/
def dictContains {α : Type} (d : Dict α) (k : String) : Bool :=
  (dictGet d k).isSome

/-- Embeds `AdvancedGapAnalysis.calculate_priority_score(score, weights)`:
multiplies the score by `weights.get("function_weight", 1.0)` when a
non-empty weights dict is supplied, then buckets the adjusted score with the
hard cutoffs `< 3` / `< 5` / `< 7`. -/
def calculate_priority_score (score : ℚ) (weights : Dict ℚ) : Priority :=
  let adjusted_score :=
    if weights ≠ [] then score * dictGetD weights "function_weight" 1 else score
  if adjusted_score < 3 then .Critical
  else if adjusted_score < 5 then .High
  else if adjusted_score < 7 then .Medium
  else .Low

/-- Embeds `AdvancedGapAnalysis._get_remediation_urgency(priority, score)`. -/
def get_remediation_urgency (priority : Priority) (score : ℚ) : Urgency :=
  if priority = .Critical ∨ score < 2 then .Immediate
  else if priority = .High ∨ score < 4 then .High
  else if priority = .Medium then .Medium
  else .Low

/-- One row of the `gap_data` list built by `analyze_gaps_with_weights`. -/
structure GapRecord where
  priority : Priority
  function_name : String
  function_id : String
  category_name : String
  subcategory_id : String
  description : String
  current_status : String
  current_score : ℚ
  weighted_score : ℚ
  function_weight : ℚ
  remediation_urgency : Urgency
  notes : String
deriving DecidableEq, Repr

/-- The body of the innermost loop of `analyze_gaps_with_weights`: skip the
subcategory when it has no assessment; otherwise read `score` and `status`
with their defaults, compute the weighted priority, test the gap condition
(`status ∈ {"Not Implemented", "Partially Implemented"} or score < 5 or
priority ∈ {Critical, High}`) and emit the gap row if it holds. -/
def processSubcategory (assessments : Dict Assessment) (fn : NistFunction)
    (function_weight : ℚ) (cat : Category) (subcat : Subcategory) :
    Option GapRecord :=
  match dictGet assessments subcat.id with
  | none => none
  | some assessment =>
    let score := assessment.score.getD 0
    let status := assessment.status.getD "Not Implemented"
    let priority := calculate_priority_score score [("function_weight", function_weight)]
    if status = "Not Implemented" ∨ status = "Partially Implemented" ∨
        score < 5 ∨ priority = .Critical ∨ priority = .High then
      some
        { priority := priority
          function_name := fn.name
          function_id := fn.id
          category_name := cat.name
          subcategory_id := subcat.id
          description := subcat.description
          current_status := status
          current_score := score
          weighted_score := score * function_weight
          function_weight := function_weight
          remediation_urgency := get_remediation_urgency priority score
          notes := assessment.notes.getD "" }
    else none

/-- Embeds `AdvancedGapAnalysis.analyze_gaps_with_weights(assessments, weights, nist_data)`:
traverse every function, category and subcategory of the taxonomy in order,
with per-function weight `weights.get(function_id, 1.0)`, collecting the gap
rows emitted by the inner loop. -/
def analyze_gaps_with_weights (assessments : Dict Assessment) (weights : Dict ℚ)
    (nist_data : List NistFunction) : List GapRecord :=
  nist_data.flatMap fun fn =>
    fn.categories.flatMap fun cat =>
      cat.subcategories.filterMap
        (processSubcategory assessments fn (dictGetD weights fn.id 1) cat)

/-- The per-function score list collected by
`AdvancedGapAnalysis.create_nist_maturity_radar`: the `score` (default 0) of
every subcategory of the function that is present in `assessments`. -/
def assessedScores (assessments : Dict Assessment) (fn : NistFunction) : List ℚ :=
  fn.categories.flatMap fun cat =>
    cat.subcategories.filterMap fun subcat =>
      (dictGet assessments subcat.id).map fun a => a.score.getD 0

/-- The `function_scores` mapping built by
`AdvancedGapAnalysis.create_nist_maturity_radar`: for every function of the
taxonomy, `sum(scores) / len(scores) if scores else 0`. -/
def maturity_function_scores (assessments : Dict Assessment)
    (nist_data : List NistFunction) : Dict ℚ :=
  nist_data.map fun fn =>
    let scores := assessedScores assessments fn
    (fn.id, if scores ≠ [] then scores.sum / (scores.length : ℚ) else 0)

/-- The overall maturity score computed in
`apps/client_portal.py` (`enhanced_gap_analysis_interface`): the flat average
`sum(all_scores) / len(all_scores) if all_scores else 0` over
`assessment.get("score", 0)` for every assessment record. -/
def overall_maturity (assessments : Dict Assessment) : ℚ :=
  let all_scores := assessments.map fun p => p.2.score.getD 0
  if all_scores ≠ [] then all_scores.sum / (all_scores.length : ℚ) else 0

/-- The per-gap `potential_improvement` column of
`AdvancedGapAnalysis.create_remediation_waterfall`:
`min(10 - row["Current_Score"], 3)`. -/
def potential_improvement (g : GapRecord) : ℚ :=
  min (10 - g.current_score) 3

/-- The per-tier impact sums of `create_remediation_waterfall`
(`df.groupby("Priority")["potential_improvement"].sum()` sorted by the key
map Critical ↦ 0, High ↦ 1, Medium ↦ 2, Low ↦ 3): the priority tiers that
occur in `gap_data`, in the fixed order Critical, High, Medium, Low, each
with the sum of the potential improvements of its gaps. -/
def priority_impact (gap_data : List GapRecord) : List (Priority × ℚ) :=
  ([Priority.Critical, .High, .Medium, .Low].filter
      (fun t => gap_data.any (fun g => g.priority == t))).map
    fun t => (t, ((gap_data.filter (fun g => g.priority == t)).map
        potential_improvement).sum)

/-- The running total appended by `create_remediation_waterfall`
(`priority_impact.sum()`), i.e. the total potential improvement over all
gaps. -/
def priority_impact_total (gap_data : List GapRecord) : ℚ :=
  (gap_data.map potential_improvement).sum

/-- Modelled from the spec: `AssessmentWeights.calculate_weighted_score` is
exercised by `tests/test_assessment_enhancements.py` but the method is
absent from `src/assessment_enhancements.py` (the class there has no such
method). Per the spec: the weighted average
Σ(score_f × weight_f) / Σ(weight_f) over the keys present in `scores`, with
weight 1.0 for any function id absent from `weights`; returns 0.0 when
`scores` is empty or null. `none` models Python `None`. -/
def calculate_weighted_score (scores : Option (Dict ℚ)) (weights : Dict ℚ) : ℚ :=
  match scores with
  | none => 0
  | some s =>
    if s = [] then 0
    else ((s.map fun p => p.2 * dictGetD weights p.1 1).sum) /
         ((s.map fun p => dictGetD weights p.1 1).sum)

/-- Urgency rank of a priority tier, Critical most urgent. -/
def priorityRank (p : Priority) : ℕ :=
  match p with
  | .Critical => 0
  | .High => 1
  | .Medium => 2
  | .Low => 3

/-- End-to-end scenario taxonomy: two functions GV (Govern) and ID (Identify),
one category and one subcategory each. -/
def scenarioTaxonomy : List NistFunction :=
  [⟨"GV", "Govern",
      [⟨"GV.OC", "Organizational Context",
          [⟨"GV.OC-01", "Organizational context is understood"⟩]⟩]⟩,
   ⟨"ID", "Identify",
      [⟨"ID.AM", "Asset Management", [⟨"ID.AM-01", "Assets are inventoried"⟩]⟩]⟩]

/-- End-to-end scenario weights: GV weighted 1.5, ID weighted 1.0. -/
def scenarioWeights : Dict ℚ := [("GV", 3 / 2), ("ID", 1)]

/-- End-to-end scenario assessments: GV.OC-01 scored 2.0 and not implemented,
ID.AM-01 scored 8.0 and fully implemented. -/
def scenarioAssessments : Dict Assessment :=
  [("GV.OC-01", ⟨some 2, some "Not Implemented", none⟩),
   ("ID.AM-01", ⟨some 8, some "Fully Implemented", none⟩)]

/-- A one-function, one-subcategory taxonomy containing only GV.OC-01. -/
def taxonomyGV : List NistFunction :=
  [⟨"GV", "Govern",
      [⟨"GV.OC", "Organizational Context", [⟨"GV.OC-01", "d1"⟩]⟩]⟩]

/-- A one-function, one-subcategory taxonomy containing only PR.AC-01. -/
def taxonomyPR : List NistFunction :=
  [⟨"PR", "Protect", [⟨"PR.AC", "Access Control", [⟨"PR.AC-01", "d2"⟩]⟩]⟩]

/-- An assessments map whose only key, XX.YY-99, is a dangling reference:
it occurs in no taxonomy used alongside it. Its record would qualify as a
gap if it were ever matched. -/
def danglingAssessments : Dict Assessment :=
  [("XX.YY-99", ⟨some 1, some "Not Implemented", none⟩)]


/-- C1 counterexample: in the end-to-end scenario the single gap record for
GV.OC-01 has priority High and remediation urgency High — not Critical and
Immediate as claimed — because the weight-adjusted score is exactly
2.0 × 1.5 = 3.0, which falls on the High side of the Critical/High boundary. -/
theorem end_to_end_priority_not_critical :
    (analyze_gaps_with_weights scenarioAssessments scenarioWeights
        scenarioTaxonomy).map
        (fun g => (g.subcategory_id, g.priority, g.remediation_urgency)) =
      [("GV.OC-01", Priority.High, Urgency.High)] ∧
    Priority.High ≠ Priority.Critical ∧ Urgency.High ≠ Urgency.Immediate := by
  refine ⟨?_, by decide, by decide⟩
  norm_num +decide [analyze_gaps_with_weights, processSubcategory,
    calculate_priority_score, get_remediation_urgency, dictGetD, dictGet,
    scenarioTaxonomy, scenarioWeights, scenarioAssessments,
    List.filterMap_cons]

/-- C1 (amended): in the end-to-end scenario, `analyze_gaps` returns exactly
one gap record — for GV.OC-01 — with priority High, weighted_score 3.0 and
remediation urgency High; `aggregate_by_function` returns GV ↦ 2.0 and
ID ↦ 8.0; and the overall flat average of all assessment scores is 5.0. -/
theorem end_to_end_scenario :
    (analyze_gaps_with_weights scenarioAssessments scenarioWeights
        scenarioTaxonomy).map
        (fun g => (g.subcategory_id, g.priority, g.weighted_score,
          g.remediation_urgency)) =
      [("GV.OC-01", Priority.High, (3 : ℚ), Urgency.High)] ∧
    maturity_function_scores scenarioAssessments scenarioTaxonomy =
      [("GV", 2), ("ID", 8)] ∧
    overall_maturity scenarioAssessments = 5 := by
  refine ⟨?_, ?_, ?_⟩
  · norm_num +decide [analyze_gaps_with_weights, processSubcategory,
      calculate_priority_score, get_remediation_urgency, dictGetD, dictGet,
      scenarioTaxonomy, scenarioWeights, scenarioAssessments,
      List.filterMap_cons]
  · norm_num +decide [maturity_function_scores, assessedScores, dictGet,
      scenarioTaxonomy, scenarioAssessments, List.filterMap_cons]
  · norm_num +decide [overall_maturity, scenarioAssessments]

/-- Specialization of `calculate_priority_score` to the singleton weights
dict `{"function_weight": w}` it receives from `analyze_gaps_with_weights`. -/
theorem calculate_priority_score_singleton (s w : ℚ) :
    calculate_priority_score s [("function_weight", w)] =
      if s * w < 3 then .Critical
      else if s * w < 5 then .High
      else if s * w < 7 then .Medium
      else .Low := by
  simp [calculate_priority_score, dictGetD, dictGet]

/-- C5: with weight 1.0 (so the adjusted score is the raw score, on the
implicit 0–10 scale of the code), a score is Critical exactly when it is
strictly below 3 — so 2.999 is Critical — while the boundary values 3, 5
and 7 fall to the lower-urgency side: High, Medium and Low respectively. -/
theorem priority_boundary_tie_break :
    ∀ s : ℚ,
      (calculate_priority_score s [("function_weight", 1)] = Priority.Critical
        ↔ s < 3) ∧
      calculate_priority_score 3 [("function_weight", 1)] = Priority.High ∧
      calculate_priority_score (2999 / 1000) [("function_weight", 1)] =
        Priority.Critical ∧
      calculate_priority_score 5 [("function_weight", 1)] = Priority.Medium ∧
      calculate_priority_score 7 [("function_weight", 1)] = Priority.Low := by
  intro s
  refine ⟨?_, ?_, ?_, ?_, ?_⟩
  · rw [calculate_priority_score_singleton, mul_one]
    split_ifs <;> simp_all
  all_goals rw [calculate_priority_score_singleton]
  all_goals norm_num

/-- C5 witness: instantiating the boundary theorem at score 0 classifies 0
as Critical. -/
theorem priority_boundary_tie_break_witness :
    calculate_priority_score 0 [("function_weight", 1)] = Priority.Critical :=
  (priority_boundary_tie_break 0).1.mpr (by norm_num)

/-- C7: `remediation_urgency` is exactly the deterministic cascade
Critical-or-score-below-2 ↦ Immediate, then High-or-score-below-4 ↦ High,
then Medium ↦ Medium, else Low; in particular a raw score below 2 yields
Immediate for every priority tier. -/
theorem remediation_urgency_mapping :
    ∀ (p : Priority) (s : ℚ),
      ((p = Priority.Critical ∨ s < 2) →
        get_remediation_urgency p s = Urgency.Immediate) ∧
      (¬(p = Priority.Critical ∨ s < 2) → (p = Priority.High ∨ s < 4) →
        get_remediation_urgency p s = Urgency.High) ∧
      (¬(p = Priority.Critical ∨ s < 2) → ¬(p = Priority.High ∨ s < 4) →
        p = Priority.Medium → get_remediation_urgency p s = Urgency.Medium) ∧
      (¬(p = Priority.Critical ∨ s < 2) → ¬(p = Priority.High ∨ s < 4) →
        p ≠ Priority.Medium → get_remediation_urgency p s = Urgency.Low) := by
  intro p s
  unfold get_remediation_urgency
  refine ⟨?_, ?_, ?_, ?_⟩ <;> intros <;> split_ifs <;> tauto

/-- C7 witness: a raw score below 2 forces Immediate even at the Low
priority tier. -/
theorem remediation_urgency_mapping_witness :
    get_remediation_urgency Priority.Low 1 = Urgency.Immediate :=
  (remediation_urgency_mapping Priority.Low 1).1 (Or.inr (by norm_num))

/-- C8: for every nonnegative function weight (weights are positive
multipliers in this program; its UI sliders range over 0.1–2.0), the
priority tier is monotonically non-increasing in urgency as the score
rises: a lower score is never assigned a lower-urgency tier than a higher
score. -/
theorem priority_monotone_in_score :
    ∀ (w s1 s2 : ℚ), 0 ≤ w → s1 < s2 →
      priorityRank (calculate_priority_score s1 [("function_weight", w)]) ≤
        priorityRank (calculate_priority_score s2 [("function_weight", w)]) := by
  intro w s1 s2 hw h
  have hm : s1 * w ≤ s2 * w := mul_le_mul_of_nonneg_right h.le hw
  rw [calculate_priority_score_singleton, calculate_priority_score_singleton]
  split_ifs <;> simp [priorityRank] <;> linarith

/-- C8 witness: at weight 1, score 2 (Critical) ranks at most score 6
(Medium). -/
theorem priority_monotone_in_score_witness :
    priorityRank (calculate_priority_score 2 [("function_weight", 1)]) ≤
      priorityRank (calculate_priority_score 6 [("function_weight", 1)]) :=
  priority_monotone_in_score 1 2 6 (by norm_num) (by norm_num)

/-- When the subcategory has no assessment record, the inner loop of
`analyze_gaps_with_weights` is skipped (no gap is emitted). -/
theorem processSubcategory_none {assessments : Dict Assessment}
    {fn : NistFunction} {w : ℚ} {cat : Category} {subcat : Subcategory}
    (h : dictGet assessments subcat.id = none) :
    processSubcategory assessments fn w cat subcat = none := by
  unfold processSubcategory
  rw [h]

/-- When the subcategory has an assessment record satisfying the gap
condition, the inner loop emits exactly the gap row built by the source. -/
theorem processSubcategory_emits {assessments : Dict Assessment}
    {fn : NistFunction} {w : ℚ} {cat : Category} {subcat : Subcategory}
    {a : Assessment} (hget : dictGet assessments subcat.id = some a)
    (hcond : a.status.getD "Not Implemented" = "Not Implemented" ∨
      a.status.getD "Not Implemented" = "Partially Implemented" ∨
      a.score.getD 0 < 5 ∨
      calculate_priority_score (a.score.getD 0) [("function_weight", w)] =
        Priority.Critical ∨
      calculate_priority_score (a.score.getD 0) [("function_weight", w)] =
        Priority.High) :
    processSubcategory assessments fn w cat subcat = some
      { priority := calculate_priority_score (a.score.getD 0)
          [("function_weight", w)],
        function_name := fn.name
        function_id := fn.id
        category_name := cat.name
        subcategory_id := subcat.id
        description := subcat.description
        current_status := a.status.getD "Not Implemented"
        current_score := a.score.getD 0
        weighted_score := a.score.getD 0 * w
        function_weight := w
        remediation_urgency := get_remediation_urgency
          (calculate_priority_score (a.score.getD 0) [("function_weight", w)])
          (a.score.getD 0)
        notes := a.notes.getD "" } := by
  simp only [processSubcategory, hget]
  rw [if_pos hcond]

/-- When the assessment record fails the gap condition, no gap is emitted. -/
theorem processSubcategory_skips {assessments : Dict Assessment}
    {fn : NistFunction} {w : ℚ} {cat : Category} {subcat : Subcategory}
    {a : Assessment} (hget : dictGet assessments subcat.id = some a)
    (hcond : ¬(a.status.getD "Not Implemented" = "Not Implemented" ∨
      a.status.getD "Not Implemented" = "Partially Implemented" ∨
      a.score.getD 0 < 5 ∨
      calculate_priority_score (a.score.getD 0) [("function_weight", w)] =
        Priority.Critical ∨
      calculate_priority_score (a.score.getD 0) [("function_weight", w)] =
        Priority.High)) :
    processSubcategory assessments fn w cat subcat = none := by
  simp only [processSubcategory, hget]
  rw [if_neg hcond]

/-- C2 counterexample: `analyze_gaps_with_weights` does not fail on a
dangling reference. With a taxonomy containing only GV.OC-01 and an
assessments map whose only key is the dangling id XX.YY-99 (whose record
would qualify as a gap), the call returns the empty list normally: the
dangling record is silently dropped, and no `DanglingReferenceError` (or
any other error path) exists in the code. -/
theorem dangling_reference_no_error :
    analyze_gaps_with_weights danglingAssessments [] taxonomyGV = [] := by
  norm_num +decide [analyze_gaps_with_weights, processSubcategory,
    calculate_priority_score, get_remediation_urgency, dictGetD, dictGet,
    taxonomyGV, danglingAssessments, List.filterMap_cons]

/-- C2 (amended): an assessment keyed by a subcategory id that occurs
nowhere in the supplied taxonomy is silently ignored: `analyze_gaps`
returns normally and its output is unchanged by the dangling entry; no
error is raised for it. -/
theorem dangling_reference_silently_skipped :
    ∀ (k : String) (a : Assessment) (assessments : Dict Assessment)
      (weights : Dict ℚ) (nist : List NistFunction),
      (∀ fn ∈ nist, ∀ cat ∈ fn.categories, ∀ subcat ∈ cat.subcategories,
        subcat.id ≠ k) →
      analyze_gaps_with_weights ((k, a) :: assessments) weights nist =
        analyze_gaps_with_weights assessments weights nist := by
  intro k a assessments weights nist hdangling
  unfold analyze_gaps_with_weights
  refine List.flatMap_congr fun fn hfn => ?_
  refine List.flatMap_congr fun cat hcat => ?_
  refine List.filterMap_congr fun subcat hsub => ?_
  have hne : dictGet ((k, a) :: assessments) subcat.id =
      dictGet assessments subcat.id := by
    have : k ≠ subcat.id := (hdangling fn hfn cat hcat subcat hsub).symm
    simp [dictGet, this]
  unfold processSubcategory
  rw [hne]

/-- C2 witness: adding the dangling entry XX.YY-99 on top of a real
assessment of GV.OC-01 leaves the gap analysis over the GV-only taxonomy
unchanged. -/
theorem dangling_reference_silently_skipped_witness :
    analyze_gaps_with_weights
        (("XX.YY-99", ⟨some 1, some "Not Implemented", none⟩) ::
          [("GV.OC-01", ⟨some 2, some "Not Implemented", none⟩)])
        [] taxonomyGV =
      analyze_gaps_with_weights
        [("GV.OC-01", ⟨some 2, some "Not Implemented", none⟩)] [] taxonomyGV :=
  dangling_reference_silently_skipped "XX.YY-99"
    ⟨some 1, some "Not Implemented", none⟩
    [("GV.OC-01", ⟨some 2, some "Not Implemented", none⟩)] [] taxonomyGV
    (by decide)

/-- A gap row emitted by the inner loop at a taxonomy position is a member
of the full `analyze_gaps_with_weights` output. -/
theorem mem_analyze_of_processSubcategory {assessments : Dict Assessment}
    {weights : Dict ℚ} {nist : List NistFunction} {fn : NistFunction}
    {cat : Category} {subcat : Subcategory} {g : GapRecord}
    (hfn : fn ∈ nist) (hcat : cat ∈ fn.categories)
    (hsub : subcat ∈ cat.subcategories)
    (h : processSubcategory assessments fn (dictGetD weights fn.id 1) cat
        subcat = some g) :
    g ∈ analyze_gaps_with_weights assessments weights nist := by
  simp only [analyze_gaps_with_weights, List.mem_flatMap, List.mem_filterMap]
  exact ⟨fn, hfn, cat, hcat, subcat, hsub, h⟩

/-- C10: an assessment record present for a taxonomy subcategory but lacking
both the score and the status field is read as score 0 and status
"Not Implemented", and — for every weight map — is emitted by
`analyze_gaps` as a gap with priority Critical, weighted_score 0 and
remediation urgency Immediate. -/
theorem missing_fields_default_gap :
    ∀ (assessments : Dict Assessment) (weights : Dict ℚ)
      (nist : List NistFunction) (fn : NistFunction) (cat : Category)
      (subcat : Subcategory) (nts : Option String),
      fn ∈ nist → cat ∈ fn.categories → subcat ∈ cat.subcategories →
      dictGet assessments subcat.id = some ⟨none, none, nts⟩ →
      ∃ g ∈ analyze_gaps_with_weights assessments weights nist,
        g.subcategory_id = subcat.id ∧ g.current_score = 0 ∧
        g.current_status = "Not Implemented" ∧
        g.priority = Priority.Critical ∧ g.weighted_score = 0 ∧
        g.remediation_urgency = Urgency.Immediate := by
  intro assessments weights nist fn cat subcat nts hfn hcat hsub hget
  have hstatus : ((⟨none, none, nts⟩ : Assessment)).status.getD
      "Not Implemented" = "Not Implemented" := rfl
  have hemits := @processSubcategory_emits assessments fn
    (dictGetD weights fn.id 1) cat subcat ⟨none, none, nts⟩ hget
    (Or.inl hstatus)
  have hp : calculate_priority_score
      (((⟨none, none, nts⟩ : Assessment)).score.getD 0)
      [("function_weight", dictGetD weights fn.id 1)] = Priority.Critical := by
    show calculate_priority_score 0
      [("function_weight", dictGetD weights fn.id 1)] = Priority.Critical
    rw [calculate_priority_score_singleton, zero_mul]
    norm_num
  refine ⟨_, mem_analyze_of_processSubcategory hfn hcat hsub hemits,
    ?_, ?_, hstatus, hp, ?_, ?_⟩
  · rfl
  · rfl
  · show ((⟨none, none, nts⟩ : Assessment)).score.getD 0 *
        dictGetD weights fn.id 1 = 0
    exact zero_mul _
  · show get_remediation_urgency
        (calculate_priority_score
          (((⟨none, none, nts⟩ : Assessment)).score.getD 0)
          [("function_weight", dictGetD weights fn.id 1)])
        (((⟨none, none, nts⟩ : Assessment)).score.getD 0) = Urgency.Immediate
    rw [hp]
    simp [get_remediation_urgency]

/-- C10 witness: a completely empty assessment record for PR.AC-01 in the
PR-only taxonomy is emitted as a Critical, Immediate gap with weighted
score 0, under the empty weight map. -/
theorem missing_fields_default_gap_witness :
    ∃ g ∈ analyze_gaps_with_weights [("PR.AC-01", ⟨none, none, none⟩)] []
        taxonomyPR,
      g.subcategory_id = "PR.AC-01" ∧ g.current_score = 0 ∧
      g.current_status = "Not Implemented" ∧
      g.priority = Priority.Critical ∧ g.weighted_score = 0 ∧
      g.remediation_urgency = Urgency.Immediate :=
  missing_fields_default_gap [("PR.AC-01", ⟨none, none, none⟩)] [] taxonomyPR
    ⟨"PR", "Protect", [⟨"PR.AC", "Access Control", [⟨"PR.AC-01", "d2"⟩]⟩]⟩
    ⟨"PR.AC", "Access Control", [⟨"PR.AC-01", "d2"⟩]⟩ ⟨"PR.AC-01", "d2"⟩ none
    (by decide) (by decide) (by decide) (by decide)

/-- Inversion of the inner loop: every emitted gap row comes from an
assessment record present for the subcategory, carries that record's
(defaulted) status, score and weighted priority, and satisfies the gap
condition. -/
theorem processSubcategory_inv {assessments : Dict Assessment}
    {fn : NistFunction} {w : ℚ} {cat : Category} {subcat : Subcategory}
    {g : GapRecord}
    (h : processSubcategory assessments fn w cat subcat = some g) :
    ∃ a, dictGet assessments subcat.id = some a ∧
      g.current_status = a.status.getD "Not Implemented" ∧
      g.current_score = a.score.getD 0 ∧
      g.priority = calculate_priority_score (a.score.getD 0)
        [("function_weight", w)] ∧
      g.subcategory_id = subcat.id ∧
      (g.current_status = "Not Implemented" ∨
        g.current_status = "Partially Implemented" ∨
        g.current_score < 5 ∨ g.priority = Priority.Critical ∨
        g.priority = Priority.High) := by
  cases hget : dictGet assessments subcat.id with
  | none =>
    rw [processSubcategory_none hget] at h
    cases h
  | some a =>
    by_cases hcond : a.status.getD "Not Implemented" = "Not Implemented" ∨
        a.status.getD "Not Implemented" = "Partially Implemented" ∨
        a.score.getD 0 < 5 ∨
        calculate_priority_score (a.score.getD 0) [("function_weight", w)] =
          Priority.Critical ∨
        calculate_priority_score (a.score.getD 0) [("function_weight", w)] =
          Priority.High
    · rw [processSubcategory_emits hget hcond] at h
      injection h with h
      subst h
      exact ⟨a, rfl, rfl, rfl, rfl, rfl, hcond⟩
    · rw [processSubcategory_skips hget hcond] at h
      cases h

/-- C6: an assessed subcategory is emitted by `analyze_gaps` exactly when
its (defaulted) status is Not Implemented or Partially Implemented, or its
score is below 5 (half of the implicit 0–10 scale), or its weight-adjusted
priority is Critical or High; concretely, a record with status
"Not Implemented" and score 2.0 under function weight 1.0 is emitted with
priority Critical, remediation urgency Immediate and weighted score 2.0. -/
theorem gap_membership_characterization :
    ∀ (assessments : Dict Assessment) (weights : Dict ℚ)
      (nist : List NistFunction),
      (∀ g ∈ analyze_gaps_with_weights assessments weights nist,
        g.current_status = "Not Implemented" ∨
        g.current_status = "Partially Implemented" ∨
        g.current_score < 5 ∨ g.priority = Priority.Critical ∨
        g.priority = Priority.High) ∧
      (∀ fn ∈ nist, ∀ cat ∈ fn.categories, ∀ subcat ∈ cat.subcategories,
        ∀ a, dictGet assessments subcat.id = some a →
        (a.status.getD "Not Implemented" = "Not Implemented" ∨
          a.status.getD "Not Implemented" = "Partially Implemented" ∨
          a.score.getD 0 < 5 ∨
          calculate_priority_score (a.score.getD 0)
            [("function_weight", dictGetD weights fn.id 1)] =
            Priority.Critical ∨
          calculate_priority_score (a.score.getD 0)
            [("function_weight", dictGetD weights fn.id 1)] =
            Priority.High) →
        ∃ g ∈ analyze_gaps_with_weights assessments weights nist,
          g.subcategory_id = subcat.id ∧ g.current_score = a.score.getD 0 ∧
          g.priority = calculate_priority_score (a.score.getD 0)
            [("function_weight", dictGetD weights fn.id 1)]) ∧
      (analyze_gaps_with_weights
          [("GV.OC-01", ⟨some 2, some "Not Implemented", none⟩)]
          [("GV", 1)] taxonomyGV).map
          (fun g => (g.priority, g.remediation_urgency, g.weighted_score)) =
        [(Priority.Critical, Urgency.Immediate, (2 : ℚ))] := by
  intro assessments weights nist
  refine ⟨?_, ?_, ?_⟩
  · intro g hg
    simp only [analyze_gaps_with_weights, List.mem_flatMap,
      List.mem_filterMap] at hg
    obtain ⟨fn, hfn, cat, hcat, subcat, hsub, hproc⟩ := hg
    obtain ⟨a, _, _, _, _, _, hdisj⟩ := processSubcategory_inv hproc
    exact hdisj
  · intro fn hfn cat hcat subcat hsub a hget hcond
    exact ⟨_, mem_analyze_of_processSubcategory hfn hcat hsub
      (processSubcategory_emits hget hcond), rfl, rfl, rfl⟩
  · norm_num +decide [analyze_gaps_with_weights, processSubcategory,
      calculate_priority_score, get_remediation_urgency, dictGetD, dictGet,
      taxonomyGV, List.filterMap_cons]

/-- C6 witness: in the PR-only taxonomy, an assessment of PR.AC-01 with
score 4 and status "Fully Implemented" is still emitted as a gap because
its score is below 5. -/
theorem gap_membership_characterization_witness :
    ∃ g ∈ analyze_gaps_with_weights
        [("PR.AC-01", ⟨some 4, some "Fully Implemented", none⟩)] []
        taxonomyPR,
      g.subcategory_id = "PR.AC-01" ∧
      g.current_score =
        ((⟨some 4, some "Fully Implemented", none⟩ : Assessment)).score.getD 0 ∧
      g.priority = calculate_priority_score
        (((⟨some 4, some "Fully Implemented", none⟩ : Assessment)).score.getD 0)
        [("function_weight", dictGetD [] "PR" 1)] :=
  (gap_membership_characterization
      [("PR.AC-01", ⟨some 4, some "Fully Implemented", none⟩)] []
      taxonomyPR).2.1
    ⟨"PR", "Protect", [⟨"PR.AC", "Access Control", [⟨"PR.AC-01", "d2"⟩]⟩]⟩
    (by decide)
    ⟨"PR.AC", "Access Control", [⟨"PR.AC-01", "d2"⟩]⟩ (by decide)
    ⟨"PR.AC-01", "d2"⟩ (by decide)
    ⟨some 4, some "Fully Implemented", none⟩ (by decide)
    (Or.inr (Or.inr (Or.inl (by norm_num))))

/-- C4 counterexample: in a taxonomy whose only function PR has no assessed
subcategory (empty assessments map), the function-score aggregation returns
PR with value 0 — the function is present in the output, not omitted. -/
theorem aggregate_zero_function_present :
    maturity_function_scores [] taxonomyPR = [("PR", 0)] := by
  norm_num +decide [maturity_function_scores, assessedScores, dictGet,
    taxonomyPR, List.filterMap_cons]

/-- C4 (amended): the aggregation returns one entry per taxonomy function:
for a function with at least one assessed subcategory the entry is the mean
of its assessed scores, and a function with zero assessed subcategories is
still present, with value 0 (it is not omitted from the map). -/
theorem aggregate_by_function_zero_present :
    ∀ (assessments : Dict Assessment) (nist : List NistFunction),
      (maturity_function_scores assessments nist).map Prod.fst =
        nist.map (fun fn => fn.id) ∧
      (∀ fn ∈ nist, assessedScores assessments fn = [] →
        (fn.id, (0 : ℚ)) ∈ maturity_function_scores assessments nist) ∧
      (∀ fn ∈ nist, assessedScores assessments fn ≠ [] →
        (fn.id, (assessedScores assessments fn).sum /
            ((assessedScores assessments fn).length : ℚ)) ∈
          maturity_function_scores assessments nist) := by
  intro assessments nist
  refine ⟨?_, ?_, ?_⟩
  · simp [maturity_function_scores, List.map_map, Function.comp]
  · intro fn hfn h
    refine List.mem_map.mpr ⟨fn, hfn, ?_⟩
    simp [h]
  · intro fn hfn h
    refine List.mem_map.mpr ⟨fn, hfn, ?_⟩
    simp [h]

/-- C4 witness: instantiating the amended aggregation theorem on the
PR-only taxonomy with no assessments puts ("PR", 0) in the output. -/
theorem aggregate_by_function_zero_present_witness :
    (("PR", (0 : ℚ))) ∈ maturity_function_scores [] taxonomyPR :=
  (aggregate_by_function_zero_present [] taxonomyPR).2.1
    ⟨"PR", "Protect", [⟨"PR.AC", "Access Control", [⟨"PR.AC-01", "d2"⟩]⟩]⟩
    (by decide) (by decide)

/-- Partition lemma: summing the per-tier impact over all four tiers
recovers the total over all gaps, because every gap's priority is exactly
one of the four tiers. -/
theorem sum_tier_sums_eq_total (l : List GapRecord) :
    (([Priority.Critical, .High, .Medium, .Low].map
        (fun t => ((l.filter (fun g => g.priority == t)).map
          potential_improvement).sum)).sum) =
      (l.map potential_improvement).sum := by
  induction l with
  | nil => simp
  | cons g rest ih =>
    simp only [List.map_cons, List.map_nil, List.sum_cons,
      List.sum_nil] at ih
    cases hg : g.priority
    all_goals
      simp only [List.map_cons, List.map_nil, List.sum_cons, List.sum_nil,
        List.filter_cons, hg]
    all_goals simp +decide
    all_goals try linarith [ih]

/-- Dropping the tiers with no gaps from the four-tier sum changes nothing:
an absent tier's filtered gap list is empty, so its tier sum is 0. -/
theorem sum_present_tiers_eq_sum_all (l : List GapRecord)
    (ts : List Priority) :
    (((ts.filter (fun t => l.any (fun g => g.priority == t))).map
        (fun t => ((l.filter (fun g => g.priority == t)).map
          potential_improvement).sum)).sum) =
      ((ts.map (fun t => ((l.filter (fun g => g.priority == t)).map
          potential_improvement).sum)).sum) := by
  induction ts with
  | nil => rfl
  | cons t ts ih =>
    by_cases h : l.any (fun g => g.priority == t)
    · simp [List.filter_cons, h, ih]
    · have hz : l.filter (fun g => g.priority == t) = [] := by
        rw [List.filter_eq_nil_iff]
        intro g hg
        simp only [List.any_eq_true, not_exists, not_and] at h
        exact fun hb => h g hg hb
      simp [List.filter_cons, h, ih, hz]

/-- C9: each gap contributes `min(10 − current_score, 3)` to the
remediation-impact waterfall — a gap with current score 1 contributes
exactly 3, not 9 — the per-tier entries appear in the fixed order
Critical, High, Medium, Low (only tiers that occur), each entry is the sum
of its tier's contributions, and the entries sum to the running total over
all gaps. -/
theorem remediation_impact_cap_and_total :
    ∀ gap_data : List GapRecord,
      (∀ g ∈ gap_data, potential_improvement g =
        min (10 - g.current_score) 3) ∧
      (∀ g ∈ gap_data, g.current_score = 1 → potential_improvement g = 3) ∧
      ((priority_impact gap_data).map Prod.fst =
        [Priority.Critical, .High, .Medium, .Low].filter
          (fun t => gap_data.any (fun g => g.priority == t))) ∧
      (∀ t v, (t, v) ∈ priority_impact gap_data →
        v = ((gap_data.filter (fun g => g.priority == t)).map
          potential_improvement).sum) ∧
      ((priority_impact gap_data).map Prod.snd).sum =
        priority_impact_total gap_data := by
  intro gap_data
  refine ⟨fun g _ => rfl, ?_, ?_, ?_, ?_⟩
  · intro g _ hsc
    simp [potential_improvement, hsc]
    norm_num [min_def]
  · simp [priority_impact, List.map_map, Function.comp_def]
  · intro t v hv
    simp only [priority_impact, List.mem_map] at hv
    obtain ⟨t2, ht2, heq⟩ := hv
    rw [Prod.ext_iff] at heq
    obtain ⟨h1, h2⟩ := heq
    subst h1
    exact h2.symm
  · rw [priority_impact, priority_impact_total, List.map_map]
    have := sum_present_tiers_eq_sum_all gap_data
      [Priority.Critical, .High, .Medium, .Low]
    calc (((([Priority.Critical, .High, .Medium, .Low].filter
            (fun t => gap_data.any (fun g => g.priority == t))).map
          (Prod.snd ∘ fun t => (t, ((gap_data.filter
            (fun g => g.priority == t)).map potential_improvement).sum))).sum))
        = (([Priority.Critical, .High, .Medium, .Low].filter
            (fun t => gap_data.any (fun g => g.priority == t))).map
          (fun t => ((gap_data.filter (fun g => g.priority == t)).map
            potential_improvement).sum)).sum := rfl
      _ = (([Priority.Critical, .High, .Medium, .Low].map
          (fun t => ((gap_data.filter (fun g => g.priority == t)).map
            potential_improvement).sum)).sum) := this
      _ = (gap_data.map potential_improvement).sum :=
          sum_tier_sums_eq_total gap_data

/-- A sample gap record with current score 1, used to instantiate the
remediation-impact theorem. -/
def gapRecordScoreOne : GapRecord :=
  { priority := .Critical, function_name := "Govern", function_id := "GV",
    category_name := "Organizational Context", subcategory_id := "GV.OC-01",
    description := "d", current_status := "Not Implemented",
    current_score := 1, weighted_score := 1, function_weight := 1,
    remediation_urgency := .Immediate, notes := "" }

/-- C9 witness: a gap with current score 1 contributes exactly 3 (the cap),
not 9. -/
theorem remediation_impact_cap_and_total_witness :
    potential_improvement gapRecordScoreOne = 3 :=
  (remediation_impact_cap_and_total [gapRecordScoreOne]).2.1 gapRecordScoreOne
    (by simp) rfl

/-- C3: the weighted score is the weighted average
Σ(score_f × weight_f) / Σ(weight_f) over the keys present in the scores
map, with weight 1.0 for every function id absent from the weights map —
so `weighted_score({"GV": 8.0}, {})` is 8.0 — and it is 0.0 when the
scores map is empty or null; missing weights never raise an error (the
default applies silently). The final conjunct checks the repository test
suite's numeric example. -/
theorem calculate_weighted_score_contract :
    calculate_weighted_score (some [("GV", 8)]) [] = 8 ∧
    (∀ weights : Dict ℚ, calculate_weighted_score none weights = 0) ∧
    (∀ weights : Dict ℚ, calculate_weighted_score (some []) weights = 0) ∧
    (∀ (s : Dict ℚ) (weights : Dict ℚ), s ≠ [] →
      calculate_weighted_score (some s) weights =
        ((s.map fun p => p.2 * dictGetD weights p.1 1).sum) /
        ((s.map fun p => dictGetD weights p.1 1).sum)) ∧
    calculate_weighted_score (some [("GV", 8), ("ID", 6), ("PR", 4)])
        [("GV", 1), ("ID", 6 / 5), ("PR", 3 / 2)] =
      (8 * 1 + 6 * (6 / 5) + 4 * (3 / 2)) / (1 + 6 / 5 + 3 / 2) := by
  refine ⟨?_, fun w => rfl, fun w => ?_, fun s w h => ?_, ?_⟩
  · norm_num +decide [calculate_weighted_score, dictGetD, dictGet]
  · simp [calculate_weighted_score]
  · simp [calculate_weighted_score, h]
  · norm_num +decide [calculate_weighted_score, dictGetD, dictGet]

/-- C3 witness: applying the weighted-average formula with an explicit
weight for GV. -/
theorem calculate_weighted_score_contract_witness :
    calculate_weighted_score (some [("GV", 8)]) [("GV", 2)] =
      (([("GV", (8 : ℚ))].map fun p => p.2 * dictGetD [("GV", 2)] p.1 1).sum) /
      (([("GV", (8 : ℚ))].map fun p => dictGetD [("GV", 2)] p.1 1).sum) :=
  calculate_weighted_score_contract.2.2.2.1 [("GV", 8)] [("GV", 2)]
    (by decide)
